import Mathlib

/-!
Verification of the TaCoS plotting pipeline
(`src/plotting/reward_vs_dt/extended_make_plot.py`).

The script reads per-environment CSV result files into pandas dataframes,
filters rows by experimental condition, aggregates repeated-seed measurements
into mean/standard-deviation summaries grouped by the integration time step,
derives secondary metrics per baseline, and draws a 4-by-3 grid of subplots.

Shallow embedding conventions:
* a dataframe is a list of column names plus a list of rows, a row being a
  total function from column names to rational values (a boolean CSV column
  is carried as 1 for True and 0 for False);
* numbers are rationals; pandas `std` (the square root of the Bessel-corrected
  sample variance) is represented by its square, the sample variance `svar`,
  since equality of nonnegative square roots is equality of the radicands and
  the square root itself leaves ℚ.  A singleton group, whose pandas `std` is
  NaN, gets the junk value 0 (division by zero in ℚ), consistently on both
  sides of every statement;
* `groupby` sorts the distinct keys ascending, as pandas does;
* a Python `assert` is an `Except.error`, and a Python function body that can
  fall off the end without `return` has an `Option` result, `none` standing
  for Python's implicit `None`;
* matplotlib is opaque: the figure is modelled by the data handed to it (the
  subplot grid shape, every `plot`/`fill_between` call's arguments, and each
  axis' x/y scale state).
-/

set_option autoImplicit false

namespace TaCoS

/-- A dataframe row: a total map from column names to rational values. -/
abbrev Row := String → ℚ

/-- A pandas dataframe: its column list and its rows (order preserved). -/
structure DataFrame where
  cols : List String
  rows : List Row

/-- Column assignment `df[c] = f(df)` : every row gets column `c` set to
`f row` (computed from the row as it was), and `c` is appended to the column
list when new. -/
def setCol (df : DataFrame) (c : String) (f : Row → ℚ) : DataFrame :=
  { cols := if c ∈ df.cols then df.cols else df.cols ++ [c]
    rows := df.rows.map (fun r => fun c' => if c' = c then f r else r c') }

/-- Boolean-mask row filtering `df[mask]`. -/
def filterRows (df : DataFrame) (p : Row → Bool) : DataFrame :=
  { cols := df.cols, rows := df.rows.filter p }

/-- The values of column `c`, in row order. -/
def columnVals (df : DataFrame) (c : String) : List ℚ :=
  df.rows.map (fun r => r c)

/-- The values of column `valcol` over the rows whose `keycol` value is `k`:
one groupby group's series. -/
def groupVals (df : DataFrame) (keycol : String) (k : ℚ) (valcol : String) : List ℚ :=
  (df.rows.filter (fun r => r keycol == k)).map (fun r => r valcol)

/-- The arithmetic mean of a series (pandas `mean`; junk value 0 when empty). -/
def mean (l : List ℚ) : ℚ := l.sum / l.length

/-- The Bessel-corrected sample variance of a series: the square of pandas
`std` (ddof = 1).  For a singleton the divisor is 0, so the value is the junk
value 0 where pandas has NaN. -/
def svar (l : List ℚ) : ℚ :=
  (l.map (fun x => (x - mean l) ^ 2)).sum / ((l.length : ℚ) - 1)

/-- Insert a key into an ascending duplicate-free key list, keeping it
ascending and duplicate-free. -/
def insertKey (x : ℚ) : List ℚ → List ℚ
  | [] => [x]
  | y :: ys => if x = y then y :: ys else if x < y then x :: y :: ys else y :: insertKey x ys

/-- The distinct values of a series in ascending order: pandas groupby's key
order. -/
def sortedKeys (l : List ℚ) : List ℚ := l.foldr insertKey []

/-- The `Statistics` named tuple of the script (line 66): group keys, per-group
means, per-group deviations (here: sample variances, see the file comment),
and the baseline's base step count. -/
structure Statistics where
  xs : List ℚ
  ys_mean : List ℚ
  ys_std : List ℚ
  base_number_of_steps : ℚ := 10
  deriving DecidableEq

/-- `df.groupby(keycol)[valcol].agg(['mean','std']).reset_index()` packed into
a `Statistics` value, as every aggregation site of the script does. -/
def aggStats (df : DataFrame) (keycol valcol : String) (base : ℚ) : Statistics :=
  let ks := sortedKeys (columnVals df keycol)
  { xs := ks
    ys_mean := ks.map (fun k => mean (groupVals df keycol k valcol))
    ys_std := ks.map (fun k => svar (groupVals df keycol k valcol))
    base_number_of_steps := base }

/-- A Python dict with string keys, as an insertion-ordered association list. -/
abbrev Dict (α : Type) := List (String × α)

/-- Python dict assignment `d[k] = v`: replaces in place when the key is
present, else appends. -/
def dictInsert {α : Type} : Dict α → String → α → Dict α
  | [], k, v => [(k, v)]
  | p :: ps, k, v => if p.1 = k then (k, v) :: ps else p :: dictInsert ps k v

/-- Python dict lookup `d[k]`, `none` when the key is missing. -/
def dictFind {α : Type} : Dict α → String → Option α
  | [], _ => none
  | p :: ps, k => if p.1 = k then some p.2 else dictFind ps k

theorem mem_insertKey {x a : ℚ} {l : List ℚ} :
    a ∈ insertKey x l ↔ a = x ∨ a ∈ l := by
  induction l with
  | nil => simp [insertKey]
  | cons y ys ih =>
    by_cases hxy : x = y
    · subst hxy; simp [insertKey]
    · by_cases hlt : x < y
      · simp [insertKey, hxy, hlt]
      · simp [insertKey, hxy, hlt, ih]
        tauto

theorem pairwise_insertKey {x : ℚ} {l : List ℚ} (h : l.Pairwise (· < ·)) :
    (insertKey x l).Pairwise (· < ·) := by
  induction l with
  | nil => simp [insertKey]
  | cons y ys ih =>
    rcases List.pairwise_cons.mp h with ⟨hy, hys⟩
    by_cases hxy : x = y
    · subst hxy; simpa [insertKey] using h
    · by_cases hlt : x < y
      · simp only [insertKey, if_neg hxy, if_pos hlt]
        refine List.pairwise_cons.mpr ⟨?_, h⟩
        intro b hb
        rcases List.mem_cons.mp hb with rfl | hb
        · exact hlt
        · exact lt_trans hlt (hy b hb)
      · have hyx : y < x := by
          rcases lt_trichotomy x y with h1 | h1 | h1
          · exact absurd h1 hlt
          · exact absurd h1 hxy
          · exact h1
        simp only [insertKey, if_neg hxy, if_neg hlt]
        refine List.pairwise_cons.mpr ⟨?_, ih hys⟩
        intro b hb
        rcases mem_insertKey.mp hb with rfl | hb
        · exact hyx
        · exact hy b hb

theorem mem_sortedKeys {a : ℚ} {l : List ℚ} : a ∈ sortedKeys l ↔ a ∈ l := by
  induction l with
  | nil => simp [sortedKeys]
  | cons x xs ih =>
    show a ∈ insertKey x (sortedKeys xs) ↔ _
    rw [mem_insertKey, ih]
    simp

theorem pairwise_sortedKeys (l : List ℚ) : (sortedKeys l).Pairwise (· < ·) := by
  induction l with
  | nil => simp [sortedKeys]
  | cons x xs ih => exact pairwise_insertKey ih

theorem nodup_sortedKeys (l : List ℚ) : (sortedKeys l).Nodup :=
  (pairwise_sortedKeys l).imp ne_of_lt

theorem dictFind_dictInsert_self {α : Type} (d : Dict α) (k : String) (v : α) :
    dictFind (dictInsert d k v) k = some v := by
  induction d with
  | nil => simp [dictInsert, dictFind]
  | cons p ps ih =>
    by_cases h : p.1 = k
    · simp [dictInsert, dictFind, h]
    · simp [dictInsert, dictFind, h, ih]

theorem dictFind_dictInsert_ne {α : Type} (d : Dict α) {k k' : String} (v : α)
    (h : k' ≠ k) : dictFind (dictInsert d k' v) k = dictFind d k := by
  induction d with
  | nil => simp [dictInsert, dictFind, h]
  | cons p ps ih =>
    by_cases hp : p.1 = k'
    · simp [dictInsert, dictFind, hp, h]
    · by_cases hk : p.1 = k
      · simp [dictInsert, dictFind, hp, hk, Ne.symm h]
      · simp [dictInsert, dictFind, hp, hk, ih]

theorem filter_of_map {α β : Type} (g : α → β) (p : β → Bool) (l : List α) :
    (l.map g).filter p = (l.filter (fun a => p (g a))).map g := by
  induction l with
  | nil => rfl
  | cons a l ih =>
    by_cases h : p (g a) <;> simp [h, ih]

/-! ## Script constants (lines 15-62 and 309-310 of the script) -/

/-- `NUM_SAMPLES_PER_SEED = 5` (line 15). -/
def NUM_SAMPLES_PER_SEED : ℕ := 5

/-- `NUM_EVALS = 10` (line 62). -/
def NUM_EVALS : ℕ := 10

/-- `SWITCH_COST = 0.1` (line 60): the value of the global while the reacher
and rccar sections run. -/
def SWITCH_COST : ℚ := 1 / 10

/-- `SWITCH_COST = 2` (line 309): the value of the global from the halfcheetah
section on. -/
def SWITCH_COST_halfcheetah : ℚ := 2

/-- `MAX_TIME_BETWEEN_SWITCHES = 0.5` (line 61): the value of the global while
the reacher and rccar sections run. -/
def MAX_TIME_BETWEEN_SWITCHES : ℚ := 1 / 2

/-- `MAX_TIME_BETWEEN_SWITCHES = 0.05` (line 310): the value of the global
from the halfcheetah section on. -/
def MAX_TIME_BETWEEN_SWITCHES_halfcheetah : ℚ := 1 / 20

/-- `BASELINE_NAMES` (lines 18-23): baseline key to display name. -/
def BASELINE_NAMES : Dict String :=
  [("basline0", "Switch-Cost-CTRL"),
   ("basline1", "Same Compute \n Same Real Time \n More \\# measurements"),
   ("basline2", "More Compute \n Same Real Time \n More \\# measurements"),
   ("basline3", "Same Compute \n Less Real Time \n Same \\# measurements")]

/-- The keys of `BASELINE_NAMES`, as `BASELINE_NAMES.keys()` enumerates them. -/
def baselineKeys : List String := BASELINE_NAMES.map Prod.fst

/-- `REVERT_BASELINE_NAMES` (line 45): display name back to baseline key.  A
missing display name, which would raise `KeyError` in Python, yields the junk
value `""` (the script only ever looks up the four display names). -/
def REVERT_BASELINE_NAMES (s : String) : String :=
  ((BASELINE_NAMES.find? (fun p => p.2 == s)).map Prod.fst).getD ""

/-- `BASE_NUMBER_OF_STEPS` (lines 32-36).  A missing key, which would raise
`KeyError` in Python, yields the junk value 0 (the script only ever looks up
the three environment names). -/
def BASE_NUMBER_OF_STEPS (env : String) : ℚ :=
  if env = "reacher" then 100000
  else if env = "rccar" then 50000
  else if env = "halfcheetah" then 1000000
  else 0

/-- `ENV_NAME_CONVERSION` (lines 97-101). -/
def ENV_NAME_CONVERSION : Dict String :=
  [("reacher", "Reacher \n [Duration = 2 sec]"),
   ("rccar", "RC Car \n [Duration = 4 sec]"),
   ("halfcheetah", "Halfcheetah \n [Duration = 10 sec]")]

/-- `ENV_NAME_CONVERSION_REVERT` (line 103): display title back to
environment name, junk value `""` for an unknown title. -/
def ENV_NAME_CONVERSION_REVERT (s : String) : String :=
  ((ENV_NAME_CONVERSION.find? (fun p => p.2 == s)).map Prod.fst).getD ""

/-- `get_dt` (lines 106-112): the environment's native integration step.  The
Python function returns `None` for any other name (no final `else`). -/
def get_dt (env_name : String) : Option ℚ :=
  if env_name = "reacher" then some (1 / 50)
  else if env_name = "rccar" then some (1 / 2)
  else if env_name = "halfcheetah" then some (1 / 20)
  else none

/-! ## Derived-metric functions (lines 73-94 and 115-125)

Each Python function first `assert`s its baseline name (an `Except.error`
with the message `AssertionError` here) and then runs an `if/elif` chain
with no `else`, so its body yields an `Option (List ℚ)`, `none` standing for
Python's implicit `None`.  `np.ones_like`, scalar multiplication and
scalar/elementwise division are the evident list maps.  `xs[-1]` raises
`IndexError` on an empty array, so the branches that index it go through
`npLastE`, whose error case propagates; `npLast` is the totalized value the
nonempty-`xs` theorems below use to spell out the formulas. -/

/-- `np.ones_like(l)`. -/
def npOnesLike (l : List ℚ) : List ℚ := l.map (fun _ => 1)

/-- `c * l` for a numpy array `l`. -/
def npScalarMul (c : ℚ) (l : List ℚ) : List ℚ := l.map (fun x => c * x)

/-- `c / l` for a numpy array `l`. -/
def npScalarDiv (c : ℚ) (l : List ℚ) : List ℚ := l.map (fun x => c / x)

/-- `l / c` for a numpy array `l`. -/
def npDivScalar (l : List ℚ) (c : ℚ) : List ℚ := l.map (fun x => x / c)

/-- `l[-1]` totalized with the junk value 0: the value the nonempty-`xs`
formula theorems name (on nonempty `l` it is the genuine last element). -/
def npLast (l : List ℚ) : ℚ := l.getLastD 0

/-- Python's `l[-1]`: the last element, or `IndexError` on an empty array. -/
def npLastE (l : List ℚ) : Except String ℚ :=
  match l.getLast? with
  | some x => Except.ok x
  | none => Except.error "IndexError"

/-- `compute_num_gradient_updates` (lines 73-83).  The `basline2` branch
indexes `stats.xs[-1]`, so on empty `xs` it raises `IndexError`. -/
def compute_num_gradient_updates (baseline_name : String) (stats : Statistics) :
    Except String (Option (List ℚ)) :=
  if baseline_name ∈ baselineKeys then
    if baseline_name = "basline0" then
      Except.ok (some (npScalarMul stats.base_number_of_steps (npOnesLike stats.xs)))
    else if baseline_name = "basline1" then
      Except.ok (some (npScalarMul stats.base_number_of_steps (npOnesLike stats.xs)))
    else if baseline_name = "basline2" then
      (npLastE stats.xs).map (fun last =>
        some (npScalarDiv stats.base_number_of_steps (npDivScalar stats.xs last)))
    else if baseline_name = "basline3" then
      Except.ok (some (npScalarMul stats.base_number_of_steps (npOnesLike stats.xs)))
    else Except.ok none
  else Except.error "AssertionError"

/-- `compute_num_measurements` (lines 85-94).  The `basline1` and `basline2`
branches index `stats.xs[-1]`, so on empty `xs` they raise `IndexError`. -/
def compute_num_measurements (baseline_name : String) (stats : Statistics) :
    Except String (Option (List ℚ)) :=
  if baseline_name ∈ baselineKeys then
    if baseline_name = "basline0" then
      Except.ok (some (npScalarMul stats.base_number_of_steps (npOnesLike stats.xs)))
    else if baseline_name = "basline1" then
      (npLastE stats.xs).map (fun last =>
        some (npScalarDiv stats.base_number_of_steps (npDivScalar stats.xs last)))
    else if baseline_name = "basline2" then
      (npLastE stats.xs).map (fun last =>
        some (npScalarDiv stats.base_number_of_steps (npDivScalar stats.xs last)))
    else if baseline_name = "basline3" then
      Except.ok (some (npScalarMul stats.base_number_of_steps (npOnesLike stats.xs)))
    else Except.ok none
  else Except.error "AssertionError"

/-- `compute_physcal_time` (lines 115-125).  The `basline3` branch indexes
`stats.xs[-1]`, so on empty `xs` it raises `IndexError`. -/
def compute_physcal_time (baseline_name : String) (stats : Statistics) :
    Except String (Option (List ℚ)) :=
  if baseline_name ∈ baselineKeys then
    if baseline_name = "basline0" then
      Except.ok (some (npScalarMul stats.base_number_of_steps (npOnesLike stats.xs)))
    else if baseline_name = "basline1" then
      Except.ok (some (npScalarMul stats.base_number_of_steps (npOnesLike stats.xs)))
    else if baseline_name = "basline2" then
      Except.ok (some (npScalarMul stats.base_number_of_steps (npOnesLike stats.xs)))
    else if baseline_name = "basline3" then
      (npLastE stats.xs).map (fun last =>
        some (npScalarMul stats.base_number_of_steps (npDivScalar stats.xs last)))
    else Except.ok none
  else Except.error "AssertionError"

/-! ## The three `update_baselines` definitions

The script defines `update_baselines` three times (lines 130-168, 229-255 and
402-428); each later definition shadows the earlier one before it is next
called, so the three are embedded as three functions.  The rccar and
halfcheetah versions read the global `SWITCH_COST`, which changes between
their call sites, so they take it as the parameter `sc`; the reacher version
runs only while the global is 0.1 and uses the constant `SWITCH_COST`
directly. -/

/-- The per-row mean `df[cs].mean(axis=1)` of the columns `cs`. -/
def rowMeanCols (cs : List String) (r : Row) : ℚ := (cs.map r).sum / cs.length

/-- Python's `s.startswith(pre)` (spelled out structurally over the character
lists so that concrete instances evaluate). -/
def pyStartsWith (s pre : String) : Bool := pre.data.isPrefixOf s.data

/-- Lines 134-144 of the reacher `update_baselines`: recompute
`results/total_reward` as the row mean of the `results/total_reward_{i}`
columns, then `results/num_actions` as the row mean of the
`results/num_actions_{i}` columns. -/
def reacherPrep (cur_data : DataFrame) : DataFrame :=
  let cs1 := cur_data.cols.filter (fun c => pyStartsWith c "results/total_reward_")
  let d1 := setCol cur_data "results/total_reward" (rowMeanCols cs1)
  let cs2 := d1.cols.filter (fun c => pyStartsWith c "results/num_actions_")
  setCol d1 "results/num_actions" (rowMeanCols cs2)

/-- `update_baselines`, first definition (lines 130-168, reacher). -/
def update_baselines_reacher (cur_data : DataFrame) (baseline_name : String)
    (cur_baselines_reward_with_switch_cost cur_baselines_reward_without_switch_cost :
      Dict Statistics) : Dict Statistics × Dict Statistics :=
  let d2 := reacherPrep cur_data
  let wo := dictInsert cur_baselines_reward_without_switch_cost baseline_name
    (aggStats d2 "new_integration_dt" "results/total_reward" (BASE_NUMBER_OF_STEPS "reacher"))
  let d3 := setCol d2 "results/reward_with_switch_cost"
    (fun r => r "results/total_reward" - SWITCH_COST * r "results/num_actions")
  let w := dictInsert cur_baselines_reward_with_switch_cost baseline_name
    (aggStats d3 "new_integration_dt" "results/reward_with_switch_cost"
      (BASE_NUMBER_OF_STEPS "reacher"))
  (w, wo)

/-- `update_baselines`, second definition (lines 229-255, rccar); `sc` is the
global `SWITCH_COST` at call time. -/
def update_baselines_rccar (sc : ℚ) (cur_data : DataFrame) (baseline_name : String)
    (cur_baselines_reward_with_switch_cost cur_baselines_reward_without_switch_cost :
      Dict Statistics) : Dict Statistics × Dict Statistics :=
  let wo := dictInsert cur_baselines_reward_without_switch_cost baseline_name
    (aggStats cur_data "new_integration_dt" "results/total_reward"
      (BASE_NUMBER_OF_STEPS "rccar"))
  let d1 := setCol cur_data "results/reward_with_switch_cost"
    (fun r => r "results/total_reward" - sc * r "results/num_actions")
  let w := dictInsert cur_baselines_reward_with_switch_cost baseline_name
    (aggStats d1 "new_integration_dt" "results/reward_with_switch_cost"
      (BASE_NUMBER_OF_STEPS "rccar"))
  (w, wo)

/-- `update_baselines`, third definition (lines 402-428, halfcheetah); `sc` is
the global `SWITCH_COST` at call time. -/
def update_baselines_halfcheetah (sc : ℚ) (cur_data : DataFrame) (baseline_name : String)
    (cur_baselines_reward_with_switch_cost cur_baselines_reward_without_switch_cost :
      Dict Statistics) : Dict Statistics × Dict Statistics :=
  let wo := dictInsert cur_baselines_reward_without_switch_cost baseline_name
    (aggStats cur_data "new_integration_dt" "results/total_reward"
      (BASE_NUMBER_OF_STEPS "halfcheetah"))
  let d1 := setCol cur_data "results/reward_with_switch_cost"
    (fun r => r "results/total_reward" - sc * r "results/num_actions")
  let w := dictInsert cur_baselines_reward_with_switch_cost baseline_name
    (aggStats d1 "new_integration_dt" "results/reward_with_switch_cost"
      (BASE_NUMBER_OF_STEPS "halfcheetah"))
  (w, wo)

/-! ## The reacher section (lines 174-223) -/

/-- Line 178: `data_adaptive[data_adaptive['switch_cost'] == SWITCH_COST]`. -/
def reacherFiltered (data_adaptive : DataFrame) : DataFrame :=
  filterRows data_adaptive (fun r => r "switch_cost" == SWITCH_COST)

/-- Lines 179-182 (and 185-188, 191-194): the loop that adds the columns
`results/reward_with_switch_cost_{index}` for `index in range(NUM_EVALS)`. -/
def addRewardCols (sc : ℚ) (df : DataFrame) : DataFrame :=
  (List.range NUM_EVALS).foldl
    (fun d i =>
      setCol d ("results/reward_with_switch_cost_" ++ toString i)
        (fun r => r ("results/total_reward_" ++ toString i) -
          sc * r ("results/num_actions_" ++ toString i)))
    df

/-- The dataframe the reacher `basline0` aggregation runs on: the
switch-cost-filtered adaptive data with the derived reward columns added
(lines 178-182). -/
def reacherB0Input (data_adaptive : DataFrame) : DataFrame :=
  addRewardCols SWITCH_COST (reacherFiltered data_adaptive)

/-- The reacher `basline3` without-switch-cost `Statistics`: what
`update_baselines` stores for `data_equidistant_naive` (lines 190, 217-221);
the function first recomputes the reward/action columns (`reacherPrep`).
Note lines 191-194 modify `data_equidistant`, not `data_equidistant_naive`,
so the naive dataframe reaches `update_baselines` as read. -/
def reacherBasline3Stats (data_equidistant_naive : DataFrame) : Statistics :=
  aggStats (reacherPrep data_equidistant_naive) "new_integration_dt"
    "results/total_reward" (BASE_NUMBER_OF_STEPS "reacher")

/-- Lines 174-223: the four `update_baselines` calls of the reacher section,
returning (with, without) switch-cost baselines dictionaries. -/
def reacherSection (data_adaptive data_equidistant data_equidistant_naive : DataFrame) :
    Dict Statistics × Dict Statistics :=
  let filtered_df := reacherB0Input data_adaptive
  let equi := addRewardCols SWITCH_COST (addRewardCols SWITCH_COST data_equidistant)
  let data_same_gd := filterRows equi (fun r => r "same_amount_of_gradient_updates" == 1)
  let data_more_gd := filterRows equi (fun r => r "same_amount_of_gradient_updates" == 0)
  let s0 := update_baselines_reacher filtered_df ((dictFind BASELINE_NAMES "basline0").getD "")
    [] []
  let s1 := update_baselines_reacher data_same_gd ((dictFind BASELINE_NAMES "basline1").getD "")
    s0.1 s0.2
  let s2 := update_baselines_reacher data_more_gd ((dictFind BASELINE_NAMES "basline2").getD "")
    s1.1 s1.2
  update_baselines_reacher data_equidistant_naive ((dictFind BASELINE_NAMES "basline3").getD "")
    s2.1 s2.2

/-! ## The rccar section (lines 258-304) -/

/-- Lines 262-263: the rccar adaptive-data filter (switch cost AND max time
between switches). -/
def rccarFiltered (data_adaptive : DataFrame) : DataFrame :=
  filterRows data_adaptive (fun r =>
    (r "switch_cost" == SWITCH_COST) && (r "max_time_between_switches" == MAX_TIME_BETWEEN_SWITCHES))

/-- Lines 274-278: the rccar naive dataframe preparation (total reward,
number of actions and derived reward taken from the `_0` evaluation). -/
def rccarNaivePrep (data_naive : DataFrame) : DataFrame :=
  let d1 := setCol data_naive "results/total_reward" (fun r => r "results/total_reward_0")
  let d2 := setCol d1 "results/num_actions" (fun r => r "results/num_actions_0")
  setCol d2 "results/reward_with_switch_cost"
    (fun r => r "results/total_reward_0" - SWITCH_COST * r "results/num_actions_0")

/-- The rccar `basline3` without-switch-cost `Statistics` (lines 274-278 and
298-302). -/
def rccarBasline3Stats (data_naive : DataFrame) : Statistics :=
  aggStats (rccarNaivePrep data_naive) "new_integration_dt" "results/total_reward"
    (BASE_NUMBER_OF_STEPS "rccar")

/-- Lines 258-304: the rccar section. -/
def rccarSection (data_adaptive data_equidistant data_naive : DataFrame) :
    Dict Statistics × Dict Statistics :=
  let filtered_df := setCol (rccarFiltered data_adaptive) "results/reward_with_switch_cost"
    (fun r => r "results/total_reward" - SWITCH_COST * r "results/num_actions")
  let equi := setCol data_equidistant "results/reward_with_switch_cost"
    (fun r => r "results/total_reward" - SWITCH_COST * r "results/num_actions")
  let data_same_gd := filterRows equi (fun r => r "same_amount_of_gradient_updates" == 1)
  let data_more_gd := filterRows equi (fun r => r "same_amount_of_gradient_updates" == 0)
  let s0 := update_baselines_rccar SWITCH_COST filtered_df
    ((dictFind BASELINE_NAMES "basline0").getD "") [] []
  let s1 := update_baselines_rccar SWITCH_COST data_same_gd
    ((dictFind BASELINE_NAMES "basline1").getD "") s0.1 s0.2
  let s2 := update_baselines_rccar SWITCH_COST data_more_gd
    ((dictFind BASELINE_NAMES "basline2").getD "") s1.1 s1.2
  update_baselines_rccar SWITCH_COST (rccarNaivePrep data_naive)
    ((dictFind BASELINE_NAMES "basline3").getD "") s2.1 s2.2

/-! ## The halfcheetah section (lines 309-442) -/

/-- Line 316: `data[data['new_integration_dt'] >= 0.05 / 30]` — the only
timestep threshold in the whole script. -/
def hcEquiFiltered (data : DataFrame) : DataFrame :=
  filterRows data (fun r => decide ((1 : ℚ) / 600 ≤ r "new_integration_dt"))

/-- Lines 318-320: the halfcheetah adaptive-data filter (switch cost AND max
time between switches AND time-as-part-of-state). -/
def hcAdaptiveFiltered (data_adaptive : DataFrame) : DataFrame :=
  filterRows data_adaptive (fun r =>
    (r "switch_cost" == SWITCH_COST_halfcheetah) &&
    (r "max_time_between_switches" == MAX_TIME_BETWEEN_SWITCHES_halfcheetah) &&
    (r "time_as_part_of_state" == 1))

/-- Lines 321-322: the filtered adaptive dataframe with the derived
`results/reward_with_switch_cost` column. -/
def hcFilteredWithCol (data_adaptive : DataFrame) : DataFrame :=
  setCol (hcAdaptiveFiltered data_adaptive) "results/reward_with_switch_cost"
    (fun r => r "results/total_reward" - SWITCH_COST_halfcheetah * r "results/num_actions")

/-- Lines 326-334: the halfcheetah `basline0` without-switch-cost statistics. -/
def hcB0Stats (data_adaptive : DataFrame) : Statistics :=
  aggStats (hcFilteredWithCol data_adaptive) "new_integration_dt" "results/total_reward"
    (BASE_NUMBER_OF_STEPS "halfcheetah")

/-- Lines 336-345: the halfcheetah `basline0` with-switch-cost statistics. -/
def hcB0WithStats (data_adaptive : DataFrame) : Statistics :=
  aggStats (hcFilteredWithCol data_adaptive) "new_integration_dt"
    "results/reward_with_switch_cost" (BASE_NUMBER_OF_STEPS "halfcheetah")

/-- Lines 350-359: the halfcheetah `basline3` without-switch-cost statistics,
aggregated over the threshold-filtered equidistant data. -/
def hcBasline3Stats (data : DataFrame) : Statistics :=
  aggStats (hcEquiFiltered data) "new_integration_dt" "results/total_reward"
    (BASE_NUMBER_OF_STEPS "halfcheetah")

/-- Line 361: the equidistant data with its derived reward column — computed
from `results/total_steps`, not `results/num_actions`. -/
def hcEquiWithCol (data : DataFrame) : DataFrame :=
  setCol (hcEquiFiltered data) "results/reward_with_switch_cost"
    (fun r => r "results/total_reward" - SWITCH_COST_halfcheetah * r "results/total_steps")

/-- Lines 362-372: the halfcheetah `basline3` with-switch-cost statistics. -/
def hcBasline3WithStats (data : DataFrame) : Statistics :=
  aggStats (hcEquiWithCol data) "new_integration_dt" "results/reward_with_switch_cost"
    (BASE_NUMBER_OF_STEPS "halfcheetah")

/-- Lines 376-377: the no-switch-cost rows with
`same_amount_of_gradient_updates == False`. -/
def hcNoSwitchMoreGd (data : DataFrame) : DataFrame :=
  filterRows data (fun r => r "same_amount_of_gradient_updates" == 0)

/-- Lines 379-387: the halfcheetah `basline2` without-switch-cost statistics. -/
def hcB2Stats (data : DataFrame) : Statistics :=
  aggStats (hcNoSwitchMoreGd data) "new_integration_dt" "results/total_reward"
    (BASE_NUMBER_OF_STEPS "halfcheetah")

/-- Line 389: the `basline2` data with its derived reward column. -/
def hcB2WithCol (data : DataFrame) : DataFrame :=
  setCol (hcNoSwitchMoreGd data) "results/reward_with_switch_cost"
    (fun r => r "results/total_reward" - SWITCH_COST_halfcheetah * r "results/num_actions")

/-- Lines 390-399: the halfcheetah `basline2` with-switch-cost statistics. -/
def hcB2WithStats (data : DataFrame) : Statistics :=
  aggStats (hcB2WithCol data) "new_integration_dt" "results/reward_with_switch_cost"
    (BASE_NUMBER_OF_STEPS "halfcheetah")

/-- Lines 309-442: the halfcheetah section.  `basline0`, `basline3` and
`basline2` are aggregated inline; `basline1` goes through the third
`update_baselines` (with the global `SWITCH_COST` now 2). -/
def hcSection (data_equidistant data_adaptive data_no_switch : DataFrame) :
    Dict Statistics × Dict Statistics :=
  let wo0 := dictInsert [] ((dictFind BASELINE_NAMES "basline0").getD "")
    (hcB0Stats data_adaptive)
  let w0 := dictInsert [] ((dictFind BASELINE_NAMES "basline0").getD "")
    (hcB0WithStats data_adaptive)
  let wo1 := dictInsert wo0 ((dictFind BASELINE_NAMES "basline3").getD "")
    (hcBasline3Stats data_equidistant)
  let w1 := dictInsert w0 ((dictFind BASELINE_NAMES "basline3").getD "")
    (hcBasline3WithStats data_equidistant)
  let wo2 := dictInsert wo1 ((dictFind BASELINE_NAMES "basline2").getD "")
    (hcB2Stats data_no_switch)
  let w2 := dictInsert w1 ((dictFind BASELINE_NAMES "basline2").getD "")
    (hcB2WithStats data_no_switch)
  let data_same_gd := filterRows data_no_switch
    (fun r => r "same_amount_of_gradient_updates" == 1)
  update_baselines_halfcheetah SWITCH_COST_halfcheetah data_same_gd
    ((dictFind BASELINE_NAMES "basline1").getD "") w2 wo2

/-! ## The figure (lines 447-530)

`plt.subplots(nrows=4, ncols=3)` plus four plotting loops over
`systems.items()`.  Each `ax[row, index].plot(...)` call is recorded as a
`PlotCmd`, each `fill_between` of the reward row as a `FillCmd`, and the
`set_xscale`/`set_yscale` calls as the final per-axis scale state. -/

/-- A matplotlib axis scale. -/
inductive Scale where
  | linear
  | log
  deriving DecidableEq

/-- One axis' scale state; matplotlib's default is linear/linear. -/
structure AxisState where
  xscale : Scale := Scale.linear
  yscale : Scale := Scale.linear
  deriving DecidableEq

/-- The default (fresh) axis state. -/
def initAxis : AxisState := {}

/-- `ax.set_xscale(s)`. -/
def setXScale (a : AxisState) (s : Scale) : AxisState := { a with xscale := s }

/-- `ax.set_yscale(s)`. -/
def setYScale (a : AxisState) (s : Scale) : AxisState := { a with yscale := s }

/-- One `ax[row, col].plot(xvals, yvals, label=label, ...)` call (the purely
stylistic linewidth/linestyle/color arguments are constants per baseline and
carry no data). -/
structure PlotCmd where
  row : ℕ
  col : ℕ
  xvals : List ℚ
  yvals : List ℚ
  label : String
  deriving DecidableEq

/-- One `ax[0, col].fill_between(xvals, c - s/√n, c + s/√n, ...)` call of the
reward row (lines 456-460), recorded by its parameters: the band is
`center ± spread / √NUM_SAMPLES_PER_SEED`, and √5 is not rational. -/
structure FillCmd where
  row : ℕ
  col : ℕ
  xvals : List ℚ
  center : List ℚ
  spread : List ℚ
  deriving DecidableEq

/-- One plotting loop `for index, (title, baselines) in enumerate(systems.items())`
with inner loop over `baselines.items()`: row `rowIdx`, column `colIdx`
onward, y values `yf title baseline_name stat`, x values `1 / stat.xs`. -/
def rowPlotsAux (rowIdx : ℕ) (yf : String → String → Statistics → List ℚ) (colIdx : ℕ) :
    List (String × Dict Statistics) → List PlotCmd
  | [] => []
  | (title, baselines) :: rest =>
    baselines.map (fun p =>
      { row := rowIdx, col := colIdx, xvals := p.2.xs.map (fun x => 1 / x)
        yvals := yf title p.1 p.2, label := p.1 }) ++
    rowPlotsAux rowIdx yf (colIdx + 1) rest

/-- The `fill_between` calls of the reward row (lines 456-460). -/
def fillRowAux (colIdx : ℕ) : List (String × Dict Statistics) → List FillCmd
  | [] => []
  | (_, baselines) :: rest =>
    baselines.map (fun p =>
      { row := 0, col := colIdx, xvals := p.2.xs.map (fun x => 1 / x)
        center := p.2.ys_mean, spread := p.2.ys_std }) ++
    fillRowAux (colIdx + 1) rest

/-- The value a metric call contributes to a plot: the returned array.  In
the other two cases (assertion failure, fall-through `None`) the script would
crash before plotting; the junk value `[]` stands in. -/
def exceptListD (e : Except String (Option (List ℚ))) : List ℚ :=
  match e with
  | Except.ok (some l) => l
  | _ => []

/-- Row 0 (lines 449-460): the reward means. -/
def rewardY (_title _baseline_name : String) (s : Statistics) : List ℚ := s.ys_mean

/-- Row 1 (lines 467-476): `compute_num_measurements` of the reverted
baseline name. -/
def samplesY (_title baseline_name : String) (s : Statistics) : List ℚ :=
  exceptListD (compute_num_measurements (REVERT_BASELINE_NAMES baseline_name) s)

/-- Row 2 (lines 483-490): `compute_num_gradient_updates` of the reverted
baseline name. -/
def computeY (_title baseline_name : String) (s : Statistics) : List ℚ :=
  exceptListD (compute_num_gradient_updates (REVERT_BASELINE_NAMES baseline_name) s)

/-- Row 3 (lines 497-505): `compute_physcal_time` of the reverted baseline
name, times `get_dt` of the reverted environment title. -/
def physTimeY (title baseline_name : String) (s : Statistics) : List ℚ :=
  (exceptListD (compute_physcal_time (REVERT_BASELINE_NAMES baseline_name) s)).map
    (fun y => y * (get_dt (ENV_NAME_CONVERSION_REVERT title)).getD 0)

/-- The final scale state of axis `(r, c)` after the four loops ran: row 0
calls only `set_xscale('log')` (line 462); rows 1, 2 and 3 call
`set_xscale('log')` then `set_yscale('log')` (lines 478-479, 492-493,
507-508).  The loops run once per column of `systems`; the scale state does
not depend on the column. -/
def mkAxes (r : ℕ) (_c : ℕ) : AxisState :=
  if r = 0 then setXScale initAxis Scale.log
  else if r = 1 then setYScale (setXScale initAxis Scale.log) Scale.log
  else if r = 2 then setYScale (setXScale initAxis Scale.log) Scale.log
  else if r = 3 then setYScale (setXScale initAxis Scale.log) Scale.log
  else initAxis

/-- The produced figure, as the data handed to matplotlib. -/
structure Figure where
  nrows : ℕ
  ncols : ℕ
  plots : List PlotCmd
  fills : List FillCmd
  axes : ℕ → ℕ → AxisState

/-- Lines 447-530: the whole plotting stage, a function of `systems` only
(the four loops iterate `systems.items()` and nothing else). -/
def mkFigure (systems : List (String × Dict Statistics)) : Figure :=
  { nrows := 4
    ncols := 3
    plots := rowPlotsAux 0 rewardY 0 systems ++ rowPlotsAux 1 samplesY 0 systems ++
      rowPlotsAux 2 computeY 0 systems ++ rowPlotsAux 3 physTimeY 0 systems
    fills := fillRowAux 0 systems
    axes := mkAxes }

/-! ## The script state -/

/-- The module-level variables the script leaves behind after the three
environment sections: each environment's with/without switch-cost baselines
dictionaries and the `systems` mapping (line 127, filled at lines 223, 304
and 442). -/
structure ScriptState where
  reacher_with : Dict Statistics
  reacher_without : Dict Statistics
  rccar_with : Dict Statistics
  rccar_without : Dict Statistics
  halfcheetah_with : Dict Statistics
  halfcheetah_without : Dict Statistics
  systems : List (String × Dict Statistics)

/-- The whole script up to the plotting stage, as a function of the nine CSV
dataframes it reads.  `systems` gets, in order, each environment's
without-switch-cost dictionary under its display title (lines 223, 304, 442). -/
def runScript (reacher_adaptive reacher_equidistant reacher_naive
    rccar_adaptive rccar_equidistant rccar_naive
    hc_equidistant hc_adaptive hc_no_switch : DataFrame) : ScriptState :=
  { reacher_with := (reacherSection reacher_adaptive reacher_equidistant reacher_naive).1
    reacher_without := (reacherSection reacher_adaptive reacher_equidistant reacher_naive).2
    rccar_with := (rccarSection rccar_adaptive rccar_equidistant rccar_naive).1
    rccar_without := (rccarSection rccar_adaptive rccar_equidistant rccar_naive).2
    halfcheetah_with := (hcSection hc_equidistant hc_adaptive hc_no_switch).1
    halfcheetah_without := (hcSection hc_equidistant hc_adaptive hc_no_switch).2
    systems := dictInsert (dictInsert (dictInsert []
      "Reacher \n [Duration = 2 sec]"
      (reacherSection reacher_adaptive reacher_equidistant reacher_naive).2)
      "RC Car \n [Duration = 4 sec]"
      (rccarSection rccar_adaptive rccar_equidistant rccar_naive).2)
      "Halfcheetah \n [Duration = 10 sec]"
      (hcSection hc_equidistant hc_adaptive hc_no_switch).2 }

/-- The figure the script saves: the plotting stage applied to the script
state's `systems` (the plotting loops read nothing else of the state). -/
def scriptFigure (st : ScriptState) : Figure := mkFigure st.systems

/-! ## Spec-side formulations

The claims describe the stored `Statistics` as "the per-group mean and
standard deviation, grouped by the `new_integration_dt` column"; the
predicates below state exactly that (membership, distinctness and
index-by-index alignment of the three arrays), to be proved of the values the
embedded code computes. -/

/-- The spec's description of a without-switch-cost aggregation result over
`df`: `xs` holds exactly the distinct `new_integration_dt` values, and
`ys_mean`/`ys_std` are, aligned index-by-index with `xs`, the mean and the
deviation (here: sample variance, see the file comment) of column `valcol`
over the rows of that group. -/
def statsMatches (df : DataFrame) (valcol : String) (s : Statistics) : Prop :=
  (∀ a, a ∈ s.xs ↔ a ∈ columnVals df "new_integration_dt") ∧ s.xs.Nodup ∧
  s.ys_mean = s.xs.map (fun k => mean (groupVals df "new_integration_dt" k valcol)) ∧
  s.ys_std = s.xs.map (fun k => svar (groupVals df "new_integration_dt" k valcol))

/-- The derived "reward minus switch-cost-penalty" series of one group: the
values `total_reward - sc * actcol` over the rows of `df` whose
`new_integration_dt` is `k`. -/
def derivedGroupVals (df : DataFrame) (sc : ℚ) (actcol : String) (k : ℚ) : List ℚ :=
  (df.rows.filter (fun r => r "new_integration_dt" == k)).map
    (fun r => r "results/total_reward" - sc * r actcol)

/-- The spec's description of a with-switch-cost aggregation result over
`df`: like `statsMatches`, but for the derived column
`total_reward - sc * actcol`. -/
def withStatsMatches (df : DataFrame) (sc : ℚ) (actcol : String) (s : Statistics) : Prop :=
  (∀ a, a ∈ s.xs ↔ a ∈ columnVals df "new_integration_dt") ∧ s.xs.Nodup ∧
  s.ys_mean = s.xs.map (fun k => mean (derivedGroupVals df sc actcol k)) ∧
  s.ys_std = s.xs.map (fun k => svar (derivedGroupVals df sc actcol k))

theorem columnVals_setCol_ne (df : DataFrame) (c : String) (f : Row → ℚ) (c' : String)
    (h : c' ≠ c) : columnVals (setCol df c f) c' = columnVals df c' := by
  simp [columnVals, setCol, List.map_map, Function.comp_def, h]

theorem groupVals_setCol_self (df : DataFrame) (c : String) (f : Row → ℚ)
    (keycol : String) (k : ℚ) (hk : keycol ≠ c) :
    groupVals (setCol df c f) keycol k c =
      (df.rows.filter (fun r => r keycol == k)).map f := by
  simp only [groupVals, setCol]
  rw [filter_of_map]
  simp [List.map_map, Function.comp_def, hk]

theorem statsMatches_aggStats (df : DataFrame) (valcol : String) (base : ℚ) :
    statsMatches df valcol (aggStats df "new_integration_dt" valcol base) := by
  refine ⟨fun a => ?_, ?_, rfl, rfl⟩
  · exact mem_sortedKeys
  · exact nodup_sortedKeys _

theorem withStatsMatches_agg (df : DataFrame) (sc : ℚ) (actcol : String) (base : ℚ) :
    withStatsMatches df sc actcol
      (aggStats (setCol df "results/reward_with_switch_cost"
          (fun r => r "results/total_reward" - sc * r actcol))
        "new_integration_dt" "results/reward_with_switch_cost" base) := by
  have hcol : columnVals (setCol df "results/reward_with_switch_cost"
      (fun r => r "results/total_reward" - sc * r actcol)) "new_integration_dt" =
      columnVals df "new_integration_dt" :=
    columnVals_setCol_ne _ _ _ _ (by decide)
  have hgv : ∀ k, groupVals (setCol df "results/reward_with_switch_cost"
      (fun r => r "results/total_reward" - sc * r actcol))
      "new_integration_dt" k "results/reward_with_switch_cost" =
      derivedGroupVals df sc actcol k := by
    intro k
    rw [groupVals_setCol_self _ _ _ _ _ (by decide)]
    rfl
  unfold withStatsMatches aggStats
  rw [hcol]
  refine ⟨fun a => mem_sortedKeys, nodup_sortedKeys _, ?_, ?_⟩ <;>
    simp only [hgv]

theorem npConst (c : ℚ) (l : List ℚ) :
    npScalarMul c (npOnesLike l) = l.map (fun _ => c) := by
  simp [npScalarMul, npOnesLike, List.map_map, Function.comp_def]

theorem npRatio (c : ℚ) (l : List ℚ) (d : ℚ) :
    npScalarDiv c (npDivScalar l d) = l.map (fun x => c * d / x) := by
  simp [npScalarDiv, npDivScalar, List.map_map, Function.comp_def, div_div_eq_mul_div]

theorem npScaleDiv (c : ℚ) (l : List ℚ) (d : ℚ) :
    npScalarMul c (npDivScalar l d) = l.map (fun x => c * x / d) := by
  simp [npScalarMul, npDivScalar, List.map_map, Function.comp_def, mul_div_assoc]

theorem npLastE_of_ne_nil {l : List ℚ} (h : l ≠ []) :
    npLastE l = Except.ok (npLast l) := by
  cases hl : l.getLast? with
  | none => exact absurd (List.getLast?_eq_none_iff.mp hl) h
  | some a => simp [npLastE, npLast, hl, List.getLastD_eq_getLast?]

theorem npLastE_map_ne (l : List ℚ) (f : ℚ → Option (List ℚ)) :
    (npLastE l).map f ≠ Except.error "AssertionError" := by
  cases hl : l.getLast? <;> simp [npLastE, hl, Except.map]

theorem rowPlotsAux_spec (rowIdx : ℕ) (yf : String → String → Statistics → List ℚ)
    (colIdx : ℕ) (sys : List (String × Dict Statistics)) (p : PlotCmd)
    (hp : p ∈ rowPlotsAux rowIdx yf colIdx sys) :
    p.row = rowIdx ∧ ∃ t bs bn s, (t, bs) ∈ sys ∧ (bn, s) ∈ bs ∧
      p.xvals = s.xs.map (fun x => 1 / x) ∧ p.yvals = yf t bn s := by
  induction sys generalizing colIdx with
  | nil => simp [rowPlotsAux] at hp
  | cons tb rest ih =>
    obtain ⟨t, bs⟩ := tb
    rw [rowPlotsAux] at hp
    rcases List.mem_append.mp hp with hmem | hmem
    · rcases List.mem_map.mp hmem with ⟨q, hq, rfl⟩
      exact ⟨rfl, t, bs, q.1, q.2, List.mem_cons_self _ _, by simpa using hq, rfl, rfl⟩
    · obtain ⟨hrow, t2, bs2, bn, s, hmem2, hb, hx, hy⟩ := ih (colIdx + 1) hmem
      exact ⟨hrow, t2, bs2, bn, s, List.mem_cons_of_mem _ hmem2, hb, hx, hy⟩

theorem fillRowAux_spec (colIdx : ℕ) (sys : List (String × Dict Statistics)) (f : FillCmd)
    (hf : f ∈ fillRowAux colIdx sys) :
    f.row = 0 ∧ ∃ t bs bn s, (t, bs) ∈ sys ∧ (bn, s) ∈ bs ∧
      f.xvals = s.xs.map (fun x => 1 / x) ∧ f.center = s.ys_mean ∧ f.spread = s.ys_std := by
  induction sys generalizing colIdx with
  | nil => simp [fillRowAux] at hf
  | cons tb rest ih =>
    obtain ⟨t, bs⟩ := tb
    rw [fillRowAux] at hf
    rcases List.mem_append.mp hf with hmem | hmem
    · rcases List.mem_map.mp hmem with ⟨q, hq, rfl⟩
      exact ⟨rfl, t, bs, q.1, q.2, List.mem_cons_self _ _, by simpa using hq, rfl, rfl, rfl⟩
    · obtain ⟨hrow, t2, bs2, bn, s, hmem2, hb, hx, hc, hs⟩ := ih (colIdx + 1) hmem
      exact ⟨hrow, t2, bs2, bn, s, List.mem_cons_of_mem _ hmem2, hb, hx, hc, hs⟩

/-! ## Concrete inputs for counterexamples and witnesses

Tiny one-row dataframes: enough to evaluate the pipeline at a concrete
point.  Every unnamed column is 0. -/

/-- One equidistant halfcheetah row: timestep 1, total reward 10, one action
but two simulation steps (so `num_actions` and `total_steps` differ). -/
def exEqRow : Row := fun c =>
  if c = "new_integration_dt" then 1
  else if c = "results/total_reward" then 10
  else if c = "results/num_actions" then 1
  else if c = "results/total_steps" then 2
  else 0

/-- A one-row equidistant halfcheetah dataframe. -/
def exEqDf : DataFrame :=
  { cols := ["new_integration_dt", "results/total_reward", "results/num_actions",
      "results/total_steps"]
    rows := [exEqRow] }

/-- One adaptive row: the reacher switch-cost value 0.1, but a max time
between switches of 7 (not 0.5) and time-as-part-of-state False. -/
def exAdpRow : Row := fun c =>
  if c = "switch_cost" then 1 / 10
  else if c = "max_time_between_switches" then 7
  else if c = "time_as_part_of_state" then 0
  else if c = "new_integration_dt" then 1
  else 0

/-- A one-row adaptive dataframe. -/
def exAdpDf : DataFrame :=
  { cols := ["switch_cost", "max_time_between_switches", "time_as_part_of_state",
      "new_integration_dt"]
    rows := [exAdpRow] }

/-- One naive-model row with an integration timestep of 1/1000, well below
the halfcheetah threshold 1/600. -/
def exNaiveRow : Row := fun c =>
  if c = "new_integration_dt" then 1 / 1000
  else if c = "results/total_reward_0" then 5
  else if c = "results/num_actions_0" then 2
  else 0

/-- A one-row naive-model dataframe. -/
def exNaiveDf : DataFrame :=
  { cols := ["new_integration_dt", "results/total_reward_0", "results/num_actions_0"]
    rows := [exNaiveRow] }

/-- A concrete `Statistics` value with nonempty `xs`. -/
def exStats : Statistics :=
  { xs := [2, 4], ys_mean := [1, 1], ys_std := [0, 0], base_number_of_steps := 7 }

/-- A concrete `Statistics` value with empty `xs`. -/
def exStatsEmpty : Statistics :=
  { xs := [], ys_mean := [], ys_std := [], base_number_of_steps := 7 }

/-! ## The claims -/

/-- C3: every `update_baselines` definition stores, under the given baseline
name in the without-switch-cost dictionary, a `Statistics` whose `xs` are the
distinct `new_integration_dt` values and whose `ys_mean`/`ys_std` are the
per-group mean and deviation of `results/total_reward`, aligned
index-by-index (for the reacher definition, of the dataframe whose
`results/total_reward` column the function itself first recomputes as the
row-mean of the `results/total_reward_{i}` columns). -/
theorem C3_update_baselines_without_stats (sc : ℚ) (df : DataFrame) (name : String)
    (w wo : Dict Statistics) :
    (∃ s, dictFind (update_baselines_reacher df name w wo).2 name = some s ∧
      statsMatches (reacherPrep df) "results/total_reward" s) ∧
    (∃ s, dictFind (update_baselines_rccar sc df name w wo).2 name = some s ∧
      statsMatches df "results/total_reward" s) ∧
    (∃ s, dictFind (update_baselines_halfcheetah sc df name w wo).2 name = some s ∧
      statsMatches df "results/total_reward" s) :=
  ⟨⟨_, dictFind_dictInsert_self _ _ _, statsMatches_aggStats _ _ _⟩,
   ⟨_, dictFind_dictInsert_self _ _ _, statsMatches_aggStats _ _ _⟩,
   ⟨_, dictFind_dictInsert_self _ _ _, statsMatches_aggStats _ _ _⟩⟩

/-- C1 (amended): the with-switch-cost `Statistics` stored for every
environment and baseline are the per-group mean and deviation, grouped by
`new_integration_dt`, of `results/total_reward` minus the switch-cost
constant times `results/num_actions` — except the halfcheetah equidistant
baseline (`basline3`), whose derived column uses `results/total_steps`
instead of `results/num_actions` (line 361). -/
theorem C1_reward_with_switch_cost_stats (sc : ℚ) (df : DataFrame) (name : String)
    (w wo : Dict Statistics) (da dns de : DataFrame) :
    (∃ s, dictFind (update_baselines_reacher df name w wo).1 name = some s ∧
      withStatsMatches (reacherPrep df) SWITCH_COST "results/num_actions" s) ∧
    (∃ s, dictFind (update_baselines_rccar sc df name w wo).1 name = some s ∧
      withStatsMatches df sc "results/num_actions" s) ∧
    (∃ s, dictFind (update_baselines_halfcheetah sc df name w wo).1 name = some s ∧
      withStatsMatches df sc "results/num_actions" s) ∧
    withStatsMatches (hcAdaptiveFiltered da) SWITCH_COST_halfcheetah "results/num_actions"
      (hcB0WithStats da) ∧
    withStatsMatches (hcNoSwitchMoreGd dns) SWITCH_COST_halfcheetah "results/num_actions"
      (hcB2WithStats dns) ∧
    withStatsMatches (hcEquiFiltered de) SWITCH_COST_halfcheetah "results/total_steps"
      (hcBasline3WithStats de) :=
  ⟨⟨_, dictFind_dictInsert_self _ _ _, withStatsMatches_agg _ _ _ _⟩,
   ⟨_, dictFind_dictInsert_self _ _ _, withStatsMatches_agg _ _ _ _⟩,
   ⟨_, dictFind_dictInsert_self _ _ _, withStatsMatches_agg _ _ _ _⟩,
   withStatsMatches_agg _ _ _ _, withStatsMatches_agg _ _ _ _, withStatsMatches_agg _ _ _ _⟩

/-- C1 counterexample: on a one-row equidistant halfcheetah dataframe with
total reward 10, one action and two simulation steps, the stored
with-switch-cost mean is 10 - 2·2 = 6, while the claim's derived column
`total_reward - SWITCH_COST · num_actions` has per-group mean 10 - 2·1 = 8. -/
theorem C1_counterexample :
    (hcBasline3WithStats exEqDf).ys_mean = [6] ∧
    ((hcBasline3WithStats exEqDf).xs.map
      (fun k => mean (derivedGroupVals (hcEquiFiltered exEqDf) SWITCH_COST_halfcheetah
        "results/num_actions" k))) = [8] ∧
    ([6] : List ℚ) ≠ [8] := by
  have hthr : decide ((1 : ℚ) / 600 ≤ 1) = true := decide_eq_true (by norm_num)
  have hthr2 : decide (((600 : ℚ))⁻¹ ≤ 1) = true := decide_eq_true (by norm_num)
  refine ⟨?_, ?_, by norm_num⟩ <;>
  · simp [hcBasline3WithStats, aggStats, hcEquiWithCol, hcEquiFiltered, filterRows, setCol,
      columnVals, sortedKeys, insertKey, groupVals, derivedGroupVals, mean, svar, exEqDf,
      exEqRow, SWITCH_COST_halfcheetah, List.filter, hthr, hthr2]
    norm_num

/-- C7: the rccar and halfcheetah `update_baselines` definitions compute the
same function of their inputs: at the same `SWITCH_COST` value and on the
same dataframe they store `Statistics` with equal `xs`, `ys_mean` and
`ys_std` in both dictionaries, differing only in the hardcoded
`base_number_of_steps` constant. -/
theorem C7_update_baselines_rccar_halfcheetah_agree (sc : ℚ) (df : DataFrame)
    (name : String) (w wo : Dict Statistics) :
    ∃ s1 s2 s3 s4,
      dictFind (update_baselines_rccar sc df name w wo).2 name = some s1 ∧
      dictFind (update_baselines_halfcheetah sc df name w wo).2 name = some s2 ∧
      dictFind (update_baselines_rccar sc df name w wo).1 name = some s3 ∧
      dictFind (update_baselines_halfcheetah sc df name w wo).1 name = some s4 ∧
      s1.xs = s2.xs ∧ s1.ys_mean = s2.ys_mean ∧ s1.ys_std = s2.ys_std ∧
      s3.xs = s4.xs ∧ s3.ys_mean = s4.ys_mean ∧ s3.ys_std = s4.ys_std ∧
      s1.base_number_of_steps = BASE_NUMBER_OF_STEPS "rccar" ∧
      s2.base_number_of_steps = BASE_NUMBER_OF_STEPS "halfcheetah" :=
  ⟨_, _, _, _, dictFind_dictInsert_self _ _ _, dictFind_dictInsert_self _ _ _,
    dictFind_dictInsert_self _ _ _, dictFind_dictInsert_self _ _ _,
    rfl, rfl, rfl, rfl, rfl, rfl, rfl, rfl⟩

/-- C2 (amended): the rows entering the `basline0` (Switch-Cost-CTRL)
aggregation are, per environment, exactly those matching that environment's
own filter: for reacher only the switch-cost value (line 178); for rccar the
switch-cost value and the max time between switches (lines 262-263); only
for halfcheetah additionally the time-in-state flag (lines 318-320).  The
reacher aggregation input is that filtered dataframe with the derived reward
columns added. -/
theorem C2_basline0_row_filters (a : DataFrame) (r : Row) :
    (r ∈ (reacherFiltered a).rows ↔ r ∈ a.rows ∧ r "switch_cost" = SWITCH_COST) ∧
    (r ∈ (rccarFiltered a).rows ↔ r ∈ a.rows ∧
      (r "switch_cost" = SWITCH_COST ∧
       r "max_time_between_switches" = MAX_TIME_BETWEEN_SWITCHES)) ∧
    (r ∈ (hcAdaptiveFiltered a).rows ↔ r ∈ a.rows ∧
      (r "switch_cost" = SWITCH_COST_halfcheetah ∧
       r "max_time_between_switches" = MAX_TIME_BETWEEN_SWITCHES_halfcheetah ∧
       r "time_as_part_of_state" = 1)) ∧
    reacherB0Input a = addRewardCols SWITCH_COST (reacherFiltered a) := by
  refine ⟨?_, ?_, ?_, rfl⟩ <;>
    simp [reacherFiltered, rccarFiltered, hcAdaptiveFiltered, filterRows, List.mem_filter,
      and_assoc]

/-- C2 counterexample: a one-row reacher adaptive dataframe whose row has
the matching switch cost 0.1 but a max time between switches of 7 (≠ 0.5)
and time-as-part-of-state False still passes the reacher filter whole, and
that row enters the `basline0` aggregation input. -/
theorem C2_counterexample :
    (reacherFiltered exAdpDf).rows = [exAdpRow] ∧
    (reacherB0Input exAdpDf).rows.length = 1 ∧
    exAdpRow "max_time_between_switches" = 7 ∧
    ¬ ((7 : ℚ) = MAX_TIME_BETWEEN_SWITCHES) ∧
    exAdpRow "time_as_part_of_state" = 0 ∧
    ¬ ((0 : ℚ) = 1) := by
  have hrange : List.range NUM_EVALS = [0, 1, 2, 3, 4, 5, 6, 7, 8, 9] := by decide
  refine ⟨?_, ?_, ?_, by norm_num [MAX_TIME_BETWEEN_SWITCHES], ?_, by norm_num⟩
  · simp [reacherFiltered, filterRows, exAdpDf, exAdpRow, SWITCH_COST, List.filter]
  · simp [reacherB0Input, addRewardCols, hrange, setCol, reacherFiltered, filterRows,
      exAdpDf, exAdpRow, SWITCH_COST, List.filter]
  · simp [exAdpRow]
  · simp [exAdpRow]

/-- C6: with nonempty `xs`, `compute_num_gradient_updates` is
`base · xs[-1]/xs` elementwise for `basline2` and the constant array `base`
for the other three; `compute_num_measurements` is `base · xs[-1]/xs` for
`basline1` and `basline2` and constant for `basline0` and `basline3`; and
`compute_physcal_time` is `base · xs/xs[-1]` for `basline3` and constant
otherwise. -/
theorem C6_metric_formulas (s : Statistics) (h : s.xs ≠ []) :
    compute_num_gradient_updates "basline2" s =
      Except.ok (some (s.xs.map (fun x => s.base_number_of_steps * npLast s.xs / x))) ∧
    compute_num_gradient_updates "basline0" s =
      Except.ok (some (s.xs.map (fun _ => s.base_number_of_steps))) ∧
    compute_num_gradient_updates "basline1" s =
      Except.ok (some (s.xs.map (fun _ => s.base_number_of_steps))) ∧
    compute_num_gradient_updates "basline3" s =
      Except.ok (some (s.xs.map (fun _ => s.base_number_of_steps))) ∧
    compute_num_measurements "basline1" s =
      Except.ok (some (s.xs.map (fun x => s.base_number_of_steps * npLast s.xs / x))) ∧
    compute_num_measurements "basline2" s =
      Except.ok (some (s.xs.map (fun x => s.base_number_of_steps * npLast s.xs / x))) ∧
    compute_num_measurements "basline0" s =
      Except.ok (some (s.xs.map (fun _ => s.base_number_of_steps))) ∧
    compute_num_measurements "basline3" s =
      Except.ok (some (s.xs.map (fun _ => s.base_number_of_steps))) ∧
    compute_physcal_time "basline3" s =
      Except.ok (some (s.xs.map (fun x => s.base_number_of_steps * x / npLast s.xs))) ∧
    compute_physcal_time "basline0" s =
      Except.ok (some (s.xs.map (fun _ => s.base_number_of_steps))) ∧
    compute_physcal_time "basline1" s =
      Except.ok (some (s.xs.map (fun _ => s.base_number_of_steps))) ∧
    compute_physcal_time "basline2" s =
      Except.ok (some (s.xs.map (fun _ => s.base_number_of_steps))) := by
  refine ⟨?_, ?_, ?_, ?_, ?_, ?_, ?_, ?_, ?_, ?_, ?_, ?_⟩ <;>
    simp [compute_num_gradient_updates, compute_num_measurements, compute_physcal_time,
      baselineKeys, BASELINE_NAMES, npLastE_of_ne_nil h, Except.map,
      npConst, npRatio, npScaleDiv]

/-- C6 witness: the `basline2` gradient-update formula evaluated at a
concrete `Statistics` with nonempty `xs`. -/
theorem C6_witness :
    compute_num_gradient_updates "basline2" exStats =
      Except.ok (some (exStats.xs.map
        (fun x => exStats.base_number_of_steps * npLast exStats.xs / x))) :=
  (C6_metric_formulas exStats (by simp [exStats])).1

/-- C10 (amended): each of the three metric functions raises
`AssertionError` exactly when the baseline name is not one of the four keys
`basline0..basline3`.  On each of those four keys with nonempty `stats.xs`
it returns (never `None`) an array of the same length as `stats.xs`; with
empty `stats.xs`, the branches that index `stats.xs[-1]` — `basline2` of
`compute_num_gradient_updates` (line 80), `basline1` and `basline2` of
`compute_num_measurements` (lines 90, 92), `basline3` of
`compute_physcal_time` (line 124) — raise `IndexError` instead of returning
an array. -/
theorem C10_metric_error_handling (name : String) (s : Statistics) :
    ((compute_num_gradient_updates name s = Except.error "AssertionError") ↔
      name ∉ baselineKeys) ∧
    ((compute_num_measurements name s = Except.error "AssertionError") ↔
      name ∉ baselineKeys) ∧
    ((compute_physcal_time name s = Except.error "AssertionError") ↔
      name ∉ baselineKeys) ∧
    (name ∈ baselineKeys → s.xs ≠ [] →
      (∃ l, compute_num_gradient_updates name s = Except.ok (some l) ∧
        l.length = s.xs.length) ∧
      (∃ l, compute_num_measurements name s = Except.ok (some l) ∧
        l.length = s.xs.length) ∧
      (∃ l, compute_physcal_time name s = Except.ok (some l) ∧
        l.length = s.xs.length)) ∧
    (s.xs = [] →
      compute_num_gradient_updates "basline2" s = Except.error "IndexError" ∧
      compute_num_measurements "basline1" s = Except.error "IndexError" ∧
      compute_num_measurements "basline2" s = Except.error "IndexError" ∧
      compute_physcal_time "basline3" s = Except.error "IndexError") ∧
    baselineKeys = ["basline0", "basline1", "basline2", "basline3"] := by
  have hempty : s.xs = [] →
      compute_num_gradient_updates "basline2" s = Except.error "IndexError" ∧
      compute_num_measurements "basline1" s = Except.error "IndexError" ∧
      compute_num_measurements "basline2" s = Except.error "IndexError" ∧
      compute_physcal_time "basline3" s = Except.error "IndexError" := by
    intro hxs
    refine ⟨?_, ?_, ?_, ?_⟩ <;>
      simp [compute_num_gradient_updates, compute_num_measurements, compute_physcal_time,
        baselineKeys, BASELINE_NAMES, hxs, npLastE, Except.map]
  by_cases h : name ∈ baselineKeys
  · have h4 : name = "basline0" ∨ name = "basline1" ∨ name = "basline2" ∨
        name = "basline3" := by
      simpa [baselineKeys, BASELINE_NAMES] using h
    refine ⟨?_, ?_, ?_, fun _ hxs => ?_, hempty, rfl⟩
    · rcases h4 with rfl | rfl | rfl | rfl <;>
        simp [compute_num_gradient_updates, h, npLastE_map_ne]
    · rcases h4 with rfl | rfl | rfl | rfl <;>
        simp [compute_num_measurements, h, npLastE_map_ne]
    · rcases h4 with rfl | rfl | rfl | rfl <;>
        simp [compute_physcal_time, h, npLastE_map_ne]
    · rcases h4 with rfl | rfl | rfl | rfl <;>
        refine ⟨?_, ?_, ?_⟩ <;>
        simp [compute_num_gradient_updates, compute_num_measurements,
          compute_physcal_time, baselineKeys, BASELINE_NAMES,
          npLastE_of_ne_nil hxs, Except.map,
          npScalarMul, npScalarDiv, npDivScalar, npOnesLike]
  · refine ⟨?_, ?_, ?_, fun hmem => absurd hmem h, hempty, rfl⟩ <;>
      simp [compute_num_gradient_updates, compute_num_measurements, compute_physcal_time, h]

/-- C10 counterexample: `basline1` is one of the four keys, yet on a
`Statistics` with empty `xs` `compute_num_measurements` raises `IndexError`
(Python's `stats.xs[-1]`, line 90) and returns no array at all. -/
theorem C10_counterexample :
    "basline1" ∈ baselineKeys ∧
    compute_num_measurements "basline1" exStatsEmpty = Except.error "IndexError" ∧
    ¬ ∃ l : List ℚ, compute_num_measurements "basline1" exStatsEmpty =
        Except.ok (some l) := by
  have hval : compute_num_measurements "basline1" exStatsEmpty =
      Except.error "IndexError" := by
    simp [compute_num_measurements, baselineKeys, BASELINE_NAMES, exStatsEmpty,
      npLastE, Except.map]
  refine ⟨by simp [baselineKeys, BASELINE_NAMES], hval, ?_⟩
  rintro ⟨l, hl⟩
  rw [hval] at hl
  exact Except.noConfusion hl

/-- C9: every group key of the halfcheetah `basline3` statistics is at least
0.05/30 = 1/600 (the rows below the threshold are dropped before
aggregation, line 316), while for reacher and rccar a naive-model dataframe
with a timestep of 1/1000 < 1/600 keeps that timestep as a `basline3` group
key — no analogous threshold exists there. -/
theorem C9_halfcheetah_dt_threshold :
    (∀ (data : DataFrame) (x : ℚ), x ∈ (hcBasline3Stats data).xs → (1 : ℚ) / 600 ≤ x) ∧
    ((1 : ℚ) / 1000 ∈ (reacherBasline3Stats exNaiveDf).xs) ∧
    ((1 : ℚ) / 1000 ∈ (rccarBasline3Stats exNaiveDf).xs) ∧
    ((1 : ℚ) / 1000 < 1 / 600) := by
  refine ⟨?_, ?_, ?_, by norm_num⟩
  · intro data x hx
    have hx2 : x ∈ columnVals (hcEquiFiltered data) "new_integration_dt" :=
      mem_sortedKeys.mp hx
    rcases List.mem_map.mp hx2 with ⟨r, hr, rfl⟩
    exact of_decide_eq_true (List.mem_filter.mp hr).2
  · simp [reacherBasline3Stats, aggStats, reacherPrep, pyStartsWith, rowMeanCols, setCol,
      columnVals, sortedKeys, insertKey, exNaiveDf, exNaiveRow, List.filter]
  · simp [rccarBasline3Stats, aggStats, rccarNaivePrep, setCol,
      columnVals, sortedKeys, insertKey, exNaiveDf, exNaiveRow, List.filter]

/-- C4 (amended): every subplot of the four rows has a log-scaled x axis; the
y axis is log-scaled for the sample-count, compute and physical-time rows
(rows 1-3) but stays linear for the reward row (row 0), whose loop calls only
`set_xscale` (line 462). -/
theorem C4_axis_scales (systems : List (String × Dict Statistics)) (r c : ℕ)
    (hr : r < 4) (_hc : c < 3) :
    ((mkFigure systems).axes r c).xscale = Scale.log ∧
    (1 ≤ r → ((mkFigure systems).axes r c).yscale = Scale.log) ∧
    (r = 0 → ((mkFigure systems).axes r c).yscale = Scale.linear) := by
  interval_cases r <;>
    simp [mkFigure, mkAxes, setXScale, setYScale, initAxis]

/-- C4 witness: the sample-count row's axis (1, 0) at a concrete figure. -/
theorem C4_witness :
    ((mkFigure []).axes 1 0).xscale = Scale.log ∧
    ((1 : ℕ) ≤ 1 → ((mkFigure []).axes 1 0).yscale = Scale.log) ∧
    ((1 : ℕ) = 0 → ((mkFigure []).axes 1 0).yscale = Scale.linear) :=
  C4_axis_scales [] 1 0 (by norm_num) (by norm_num)

/-- C4 counterexample: the reward row's y axis ends up linear, not log. -/
theorem C4_counterexample :
    ((mkFigure []).axes 0 0).yscale = Scale.linear ∧ Scale.linear ≠ Scale.log := by
  refine ⟨?_, by simp⟩
  simp [mkFigure, mkAxes, setXScale, initAxis]

/-- C5: the figure is a 4-by-3 subplot grid; its plot calls are exactly the
four row loops in the order reward, sample count, compute, physical time;
`systems` holds the environment columns in the order reacher, rccar,
halfcheetah; and every `plot` and `fill_between` call's x values are the
element-wise inverse of some stored `Statistics`' `xs`. -/
theorem C5_figure_layout (rA rE rN cA cE cN hE hA hN : DataFrame) :
    let st := runScript rA rE rN cA cE cN hE hA hN
    let fig := scriptFigure st
    fig.nrows = 4 ∧ fig.ncols = 3 ∧
    st.systems.map Prod.fst =
      ["Reacher \n [Duration = 2 sec]", "RC Car \n [Duration = 4 sec]",
       "Halfcheetah \n [Duration = 10 sec]"] ∧
    fig.plots =
      rowPlotsAux 0 rewardY 0 st.systems ++ rowPlotsAux 1 samplesY 0 st.systems ++
      rowPlotsAux 2 computeY 0 st.systems ++ rowPlotsAux 3 physTimeY 0 st.systems ∧
    (∀ p ∈ fig.plots, p.row < 4 ∧ ∃ t bs bn s, (t, bs) ∈ st.systems ∧ (bn, s) ∈ bs ∧
      p.xvals = s.xs.map (fun x => 1 / x)) ∧
    (∀ f ∈ fig.fills, f.row = 0 ∧ ∃ t bs bn s, (t, bs) ∈ st.systems ∧ (bn, s) ∈ bs ∧
      f.xvals = s.xs.map (fun x => 1 / x)) := by
  intro st fig
  have hrow : ∀ (k : ℕ) (yf : String → String → Statistics → List ℚ),
      k < 4 → ∀ p ∈ rowPlotsAux k yf 0 st.systems,
      p.row < 4 ∧ ∃ t bs bn s, (t, bs) ∈ st.systems ∧ (bn, s) ∈ bs ∧
        p.xvals = s.xs.map (fun x => 1 / x) := by
    intro k yf hk p hp
    obtain ⟨hr, t, bs, bn, s, h1, h2, h3, _⟩ := rowPlotsAux_spec _ _ _ _ _ hp
    exact ⟨hr ▸ hk, t, bs, bn, s, h1, h2, h3⟩
  refine ⟨rfl, rfl, ?_, rfl, ?_, ?_⟩
  · show (runScript rA rE rN cA cE cN hE hA hN).systems.map Prod.fst = _
    simp [runScript, dictInsert]
  · intro p hp
    have hp2 : p ∈ rowPlotsAux 0 rewardY 0 st.systems ++ rowPlotsAux 1 samplesY 0 st.systems ++
        rowPlotsAux 2 computeY 0 st.systems ++ rowPlotsAux 3 physTimeY 0 st.systems := hp
    rcases List.mem_append.mp hp2 with h1 | h1
    · rcases List.mem_append.mp h1 with h2 | h2
      · rcases List.mem_append.mp h2 with h3 | h3
        · exact hrow 0 rewardY (by norm_num) p h3
        · exact hrow 1 samplesY (by norm_num) p h3
      · exact hrow 2 computeY (by norm_num) p h2
    · exact hrow 3 physTimeY (by norm_num) p h1
  · intro f hf
    have hf2 : f ∈ fillRowAux 0 st.systems := hf
    obtain ⟨hr, t, bs, bn, s, h1, h2, h3, _⟩ := fillRowAux_spec _ _ _ hf2
    exact ⟨hr, t, bs, bn, s, h1, h2, h3⟩

/-- C8: the figure is a function of `systems` alone — two script states with
the same `systems` yield the same figure, whatever their with-switch-cost
dictionaries hold — and `systems` is assembled from exactly the three
without-switch-cost dictionaries, so the with-switch-cost statistics never
reach the plot. -/
theorem C8_systems_frame :
    (∀ st st' : ScriptState, st.systems = st'.systems →
      scriptFigure st = scriptFigure st') ∧
    (∀ rA rE rN cA cE cN hE hA hN : DataFrame,
      (runScript rA rE rN cA cE cN hE hA hN).systems =
        [("Reacher \n [Duration = 2 sec]",
          (runScript rA rE rN cA cE cN hE hA hN).reacher_without),
         ("RC Car \n [Duration = 4 sec]",
          (runScript rA rE rN cA cE cN hE hA hN).rccar_without),
         ("Halfcheetah \n [Duration = 10 sec]",
          (runScript rA rE rN cA cE cN hE hA hN).halfcheetah_without)]) := by
  constructor
  · intro st st' h
    unfold scriptFigure
    rw [h]
  · intro rA rE rN cA cE cN hE hA hN
    simp [runScript, dictInsert]

end TaCoS
